import Mathlib

/-!
Verification of the `ipvs` package (generic-netlink client for the Linux
IP Virtual Server subsystem), as implemented in `ipvs.go`.

The package speaks to the kernel through an external netlink transport
(`github.com/vishvananda/netlink/nl`) and a namespace resolver
(`github.com/vishvananda/netns`).  Those collaborators are modelled as
environments supplying the outcome of each external call, and the calls a
function performs are recorded in an explicit effect trace, so that
"before any socket is opened" or "without touching the transport" become
statements about the trace.

Machine integers (`uint16`, `uint32`) are modelled as `Nat`, with explicit
`% 2 ^ w` or masking only where the Go code itself masks.  Go's `error`
results become `Option`/`Except` values; a Go function that can only panic
(not fail) returns `Except GoPanic _`.
-/

namespace Ipvs

/-- A Go `error` value; the package only ever builds errors from format
strings, so the payload is the rendered message. -/
inductive GoError where
  | msg (s : String)
  deriving DecidableEq, Repr

/-- A Go runtime panic relevant to this code: dereferencing a nil pointer
(calling a method on a nil receiver that touches its fields). -/
inductive GoPanic where
  | nilPointerDereference
  deriving DecidableEq, Repr

/-- `net.IP`: a byte slice holding a 4-byte (IPv4) or 16-byte (IPv6)
address. -/
structure IP where
  bytes : List Nat
  deriving DecidableEq, Repr

/-- `net.IP.To4`: the 4-byte form of the address if it is IPv4 (either a
4-byte slice, or a 16-byte IPv4-in-IPv6 mapped address), else `none`
(Go `nil`). -/
def IP.to4 (ip : IP) : Option (List Nat) :=
  if ip.bytes.length = 4 then some ip.bytes
  else if ip.bytes.length = 16 ∧ ip.bytes.take 12 = [0, 0, 0, 0, 0, 0, 0, 0, 0, 0, 255, 255] then
    some (ip.bytes.drop 12)
  else none

/-- `syscall.IPPROTO_TCP` -/
def IPPROTO_TCP : Nat := 6

/-- `syscall.IPPROTO_UDP` -/
def IPPROTO_UDP : Nat := 17

/-- `IPProto` specifies the protocol encapsulated within an IP datagram
(`uint16` in the source; modelled as `Nat`). -/
abbrev IPProto := Nat

/-- `IPProto.String`: the `switch` in the source mapping a protocol number
to its name, with the `fmt.Sprintf("IP(%d)", p)` fallback. -/
def IPProto.String (p : IPProto) : String :=
  if p = IPPROTO_TCP then "TCP"
  else if p = IPPROTO_UDP then "UDP"
  else "IP(" ++ toString p ++ ")"

/-- `IPProto.Value` -/
def IPProto.Value (p : IPProto) : Nat := p

/-- `SvcStats` defines an IPVS service statistics snapshot. -/
structure SvcStats where
  Connections : Nat
  PacketsIn : Nat
  PacketsOut : Nat
  BytesIn : Nat
  BytesOut : Nat
  CPS : Nat
  BPSOut : Nat
  PPSIn : Nat
  PPSOut : Nat
  BPSIn : Nat
  deriving DecidableEq, Repr

/-- The zero value of `SvcStats`. -/
def SvcStats.zero : SvcStats :=
  { Connections := 0, PacketsIn := 0, PacketsOut := 0, BytesIn := 0, BytesOut := 0,
    CPS := 0, BPSOut := 0, PPSIn := 0, PPSOut := 0, BPSIn := 0 }

/-- `Service` defines an IPVS service in its entirety. -/
structure Service where
  Address : IP
  Protocol : IPProto
  Port : Nat
  FWMark : Nat
  SchedName : String
  Flags : Nat
  Timeout : Nat
  Netmask : Nat
  AddressFamily : Nat
  PEName : String
  Stats : SvcStats
  deriving DecidableEq, Repr

/-- `Service.String`: the `switch` in the source rendering a service.  The
formatting of the raw `net.IP` value by `fmt` (`%v` on `svc.Address`) is
standard-library behaviour external to this package, so it is passed in as
`ipFmt`; the protocol is rendered by the package's own `IPProto.String`. -/
def Service.String (ipFmt : IP → String) (svc : Service) : String :=
  if svc.FWMark > 0 then
    "FMW " ++ toString svc.FWMark ++ " (" ++ svc.SchedName ++ ")"
  else if svc.Address.to4 = none then
    IPProto.String svc.Protocol ++ " [" ++ ipFmt svc.Address ++ "]:" ++
      toString svc.Port ++ " (" ++ svc.SchedName ++ ")"
  else
    IPProto.String svc.Protocol ++ " " ++ ipFmt svc.Address ++ ":" ++
      toString svc.Port ++ " (" ++ svc.SchedName ++ ")"

/-- `Version` defines the IPVS version reported by the kernel. -/
structure Version where
  Major : Nat
  Minor : Nat
  Patch : Nat
  deriving DecidableEq, Repr

/-- `Info` defines IPVS info: the decoded version and the connection
hash-table size. -/
structure Info where
  Version : Version
  ConnTableSize : Nat
  deriving DecidableEq, Repr

/-- The raw reply decoded by the netlink layer for the get-info command:
the packed 32-bit version integer and the table size (fields `version` and
`connTableSize` of the reply consumed by `Handle.GetInfo`). -/
structure InfoReply where
  version : Nat
  connTableSize : Nat
  deriving DecidableEq, Repr

/-- The version-unpacking arithmetic of `Handle.GetInfo`:
`Major = (ver >> 16) & 0xff`, `Minor = (ver >> 8) & 0xff`,
`Patch = ver & 0xff`. -/
def decodeVersion (ver : Nat) : Version :=
  { Major := (ver >>> 16) &&& 0xff,
    Minor := (ver >>> 8) &&& 0xff,
    Patch := ver &&& 0xff }

/-- `Handle.GetInfo`, parameterised by the outcome `res` of the underlying
`doGetInfoCmd` exchange. -/
def GetInfo (res : Except GoError InfoReply) : Except GoError Info :=
  match res with
  | .error err => .error err
  | .ok r => .ok { Version := decodeVersion r.version, ConnTableSize := r.connTableSize }

/-- `Handle.GetService`, parameterised by the outcome `dumpResult` of the
underlying filtered dump `doGetServicesCmd(s)`: error out unless the dump
yielded exactly one service, else return that service. -/
def GetService (dumpResult : Except GoError (List Service)) : Except GoError Service :=
  match dumpResult with
  | .error err => .error err
  | .ok res =>
      if h : res.length ≠ 1 then
        .error (.msg ("Expected only one service obtained=" ++ toString res.length))
      else
        .ok (res.get ⟨0, by omega⟩)

/-- `Handle.IsServicePresent`, parameterised by the outcome `cmdResult` of
the underlying `doCmd(s, nil, ipvsCmdGetService)` (a Go `error`, i.e. an
`Option GoError`): `nil == i.doCmd(...)`. -/
def IsServicePresent (cmdResult : Option GoError) : Bool :=
  none == cmdResult

/-- An opaque netlink socket handle supplied by the transport. -/
structure Socket where
  fd : Nat
  deriving DecidableEq, Repr

/-- An opaque network-namespace handle supplied by the resolver. -/
structure NsHandle where
  id : Nat
  deriving DecidableEq, Repr

/-- `netns.None()`: the empty namespace handle used when no path is given. -/
def nsNone : NsHandle := { id := 0 }

/-- `netlinkRecvSocketsTimeout = 3 * time.Second`, in nanoseconds. -/
def netlinkRecvSocketsTimeout : Nat := 3 * 1000000000

/-- `netlinkSendSocketTimeout = 30 * time.Second`, in nanoseconds. -/
def netlinkSendSocketTimeout : Nat := 30 * 1000000000

/-- The externally observable calls a function makes on its collaborators
(namespace resolver and netlink transport), in order. -/
inductive Effect where
  | resolveNs (path : String)
  | nsClose
  | sockOpen
  | setSendTimeout (nsec : Nat)
  | setRecvTimeout (nsec : Nat)
  | sockClose
  | send
  | recv
  deriving DecidableEq, Repr

/-- The outcomes the external collaborators return to `New`: what
`netns.GetFromPath`, `nl.GetNetlinkSocketAt`, `SetSendTimeout` and
`SetReceiveTimeout` each yield when called. -/
structure NetEnv where
  resolveNs : String → Except GoError NsHandle
  openSock : NsHandle → Except GoError Socket
  setSendTimeoutRes : Nat → Option GoError
  setRecvTimeoutRes : Nat → Option GoError

/-- `Handle` provides a namespace-specific ipvs handle: a sequence counter
and a (nil-able) pointer to the netlink socket. -/
structure Handle where
  seq : Nat
  sock : Option Socket
  deriving DecidableEq, Repr

/-- The body of `New` after the namespace handle `n` has been obtained:
open the socket at `n`, set the fixed send and receive timeouts, and build
the handle; the deferred `n.Close()` runs on every one of these exit
paths, so each trace ends in `nsClose`. -/
def newAfterNs (env : NetEnv) (n : NsHandle) : Except GoError Handle × List Effect :=
  match env.openSock n with
  | .error err => (.error err, [.sockOpen, .nsClose])
  | .ok sock =>
      match env.setSendTimeoutRes netlinkSendSocketTimeout with
      | some err =>
          (.error err,
           [.sockOpen, .setSendTimeout netlinkSendSocketTimeout, .nsClose])
      | none =>
          match env.setRecvTimeoutRes netlinkRecvSocketsTimeout with
          | some err =>
              (.error err,
               [.sockOpen, .setSendTimeout netlinkSendSocketTimeout,
                .setRecvTimeout netlinkRecvSocketsTimeout, .nsClose])
          | none =>
              (.ok { seq := 0, sock := some sock },
               [.sockOpen, .setSendTimeout netlinkSendSocketTimeout,
                .setRecvTimeout netlinkRecvSocketsTimeout, .nsClose])

/-- `New`: resolve the namespace from `path` when one is given (returning
the resolver error before anything else on failure — the `defer n.Close()`
is only armed after that early return), then proceed as `newAfterNs`.  The
initial `setup()` is an idempotent family registration with no effect on
this model's collaborators. -/
def New (env : NetEnv) (path : String) : Except GoError Handle × List Effect :=
  if path = "" then newAfterNs env nsNone
  else
    match env.resolveNs path with
    | .error err => (.error err, [.resolveNs path])
    | .ok n =>
        let r := newAfterNs env n
        (r.1, .resolveNs path :: r.2)

/-- Calling `Close()` on a `*nl.NetlinkSocket` pointer: panics when the
pointer is nil, otherwise closes the socket. -/
def sockCloseCall (s : Option Socket) : Except GoPanic (List Effect) :=
  match s with
  | none => .error .nilPointerDereference
  | some _ => .ok [.sockClose]

/-- `Handle.Close`: close the socket only if it is non-nil. -/
def Handle.Close (h : Handle) : Except GoPanic (List Effect) :=
  if h.sock.isSome then sockCloseCall h.sock else .ok []

/-! ### Spec-modelled netlink command layer

The repository's netlink codec/dispatch file (defining `doCmd`,
`fillService`, `doGetServicesCmd`, …) is not part of the sources verified
here; the definitions below model the parts of it that the claims need,
from the specification's description of the Entity Translator and the
Command Dispatcher. -/

/-- The top-level attribute type tags of the Service attribute tree. -/
inductive SvcAttrTag where
  | addressFamily
  | protocol
  | address
  | port
  | fwmark
  | schedName
  | flags
  | timeout
  | netmask
  | peName
  deriving DecidableEq, Repr

/-- One encoded attribute: a type tag and a payload byte sequence. -/
structure Attr where
  tag : SvcAttrTag
  payload : List Nat
  deriving DecidableEq, Repr

/-- Little-endian bytes of a 16-bit value. -/
def u16bytes (n : Nat) : List Nat := [n % 256, n / 256 % 256]

/-- Little-endian bytes of a 32-bit value. -/
def u32bytes (n : Nat) : List Nat :=
  [n % 256, n / 256 % 256, n / 65536 % 256, n / 16777216 % 256]

/-- Network-byte-order (big-endian) bytes of a 16-bit value, used for the
port on the wire. -/
def u16bytesBE (n : Nat) : List Nat := [n / 256 % 256, n % 256]

/-- Bytes of a null-terminated string attribute. -/
def strBytes (s : String) : List Nat := (s.data.map Char.toNat) ++ [0]

/-- Modelled from the spec: the Service→attribute encoder used by every
service-carrying command (`fillService` in the repository's netlink layer,
not among the sources verified here).  Identity attributes come first —
either the firewall-mark integer when `FWMark > 0`, or
address-family + protocol + address + port — then the option attributes
(scheduler name, flags+mask pair, timeout, netmask, and the
persistence-engine name when set). -/
def encodeServiceAttrs (s : Service) : List Attr :=
  (if s.FWMark > 0 then
     [{ tag := .fwmark, payload := u32bytes s.FWMark }]
   else
     [{ tag := .addressFamily, payload := u16bytes s.AddressFamily },
      { tag := .protocol, payload := u16bytes s.Protocol },
      { tag := .address, payload := s.Address.bytes },
      { tag := .port, payload := u16bytesBE s.Port }])
  ++ [{ tag := .schedName, payload := strBytes s.SchedName },
      { tag := .flags, payload := u32bytes s.Flags ++ u32bytes 4294967295 },
      { tag := .timeout, payload := u32bytes s.Timeout },
      { tag := .netmask, payload := u32bytes s.Netmask }]
  ++ (if s.PEName ≠ "" then [{ tag := .peName, payload := strBytes s.PEName }] else [])

/-- The life-cycle state of a dispatcher handle: open and ready, or
closed. -/
inductive HState where
  | opened
  | closed
  deriving DecidableEq, Repr

/-- Modelled from the spec: the dispatcher state the missing netlink layer
maintains per handle — the open/closed life-cycle state and the sequence
counter. -/
structure MHandle where
  st : HState
  seq : Nat
  deriving DecidableEq, Repr

/-- Modelled from the spec: explicit close moves the handle to the
terminal Closed state. -/
def MHandle.closeM (h : MHandle) : MHandle := { h with st := .closed }

/-- The transport outcome of one command exchange while the handle is
open: the result the send/receive round trip would produce. -/
structure Exchange where
  result : Except GoError Unit

/-- Modelled from the spec: one command dispatch (`doCmd` in the
repository's netlink layer, not among the sources verified here).  On a
closed handle the operation fails immediately without touching the
transport; on an open handle it sends one frame, receives the reply, and
bumps the sequence counter. -/
def doCmdM (ex : Exchange) (h : MHandle) : Except GoError Unit × List Effect × MHandle :=
  match h.st with
  | .closed => (.error (.msg "ipvs: handle closed"), [], h)
  | .opened => (ex.result, [.send, .recv], { h with seq := h.seq + 1 })

/-- Run a sequence of command dispatches, threading the handle state and
concatenating the effect traces. -/
def runCmdsM (exs : List Exchange) (h : MHandle) :
    List (Except GoError Unit) × List Effect × MHandle :=
  match exs with
  | [] => ([], [], h)
  | ex :: rest =>
      let step := doCmdM ex h
      let tail := runCmdsM rest step.2.2
      (step.1 :: tail.1, step.2.1 ++ tail.2.1, tail.2.2)

/-! ### Concrete inputs used by the witnesses -/

/-- A firewall-mark service with arbitrary address/protocol/port fields. -/
def svcFw7 : Service :=
  { Address := { bytes := [10, 0, 0, 1] }, Protocol := IPPROTO_TCP, Port := 80,
    FWMark := 7, SchedName := "rr", Flags := 0, Timeout := 0, Netmask := 0,
    AddressFamily := 2, PEName := "", Stats := SvcStats.zero }

/-- A firewall-mark service agreeing with `svcFwB` on FWMark and SchedName only. -/
def svcFwA : Service :=
  { Address := { bytes := [10, 0, 0, 1] }, Protocol := IPPROTO_TCP, Port := 80,
    FWMark := 9, SchedName := "wrr", Flags := 1, Timeout := 300, Netmask := 0,
    AddressFamily := 2, PEName := "sip", Stats := SvcStats.zero }

/-- A firewall-mark service agreeing with `svcFwA` on FWMark and SchedName only. -/
def svcFwB : Service :=
  { Address := { bytes := [0, 0, 0, 0, 0, 0, 0, 0, 0, 0, 0, 0, 0, 0, 0, 1] },
    Protocol := IPPROTO_UDP, Port := 8080,
    FWMark := 9, SchedName := "wrr", Flags := 0, Timeout := 0, Netmask := 4294967295,
    AddressFamily := 10, PEName := "", Stats := SvcStats.zero }

/-- An environment whose namespace resolver fails on every path. -/
def envNsFail : NetEnv :=
  { resolveNs := fun _ => .error (.msg "no such namespace"),
    openSock := fun _ => .ok { fd := 3 },
    setSendTimeoutRes := fun _ => none,
    setRecvTimeoutRes := fun _ => none }

/-- An environment where every external call succeeds. -/
def envOk : NetEnv :=
  { resolveNs := fun _ => .ok { id := 1 },
    openSock := fun _ => .ok { fd := 3 },
    setSendTimeoutRes := fun _ => none,
    setRecvTimeoutRes := fun _ => none }

/-! ### Claims -/

/-- C3: For every kernel-reported version integer `v`, `GetInfo` decodes it
into a `Version` whose `Major` is bits 16–23 of `v`, `Minor` bits 8–15 and
`Patch` bits 0–7 (each at most 255); in particular `0x010203` decodes to
`Version 1 2 3`. -/
theorem getInfo_version_bitpacking (v cts : Nat) :
    GetInfo (.ok { version := v, connTableSize := cts }) =
      .ok { Version := decodeVersion v, ConnTableSize := cts } ∧
    (decodeVersion v).Major = v / 2 ^ 16 % 2 ^ 8 ∧
    (decodeVersion v).Minor = v / 2 ^ 8 % 2 ^ 8 ∧
    (decodeVersion v).Patch = v % 2 ^ 8 ∧
    (decodeVersion v).Major ≤ 255 ∧
    (decodeVersion v).Minor ≤ 255 ∧
    (decodeVersion v).Patch ≤ 255 ∧
    decodeVersion 0x010203 = { Major := 1, Minor := 2, Patch := 3 } := by
  have hmask : ∀ x : Nat, x &&& 255 = x % 256 := by
    intro x
    have h := Nat.and_pow_two_sub_one_eq_mod x 8
    norm_num at h
    exact h
  have hmaj : (decodeVersion v).Major = v / 2 ^ 16 % 2 ^ 8 := by
    show (v >>> 16) &&& 255 = _
    rw [hmask, Nat.shiftRight_eq_div_pow]; norm_num
  have hmin : (decodeVersion v).Minor = v / 2 ^ 8 % 2 ^ 8 := by
    show (v >>> 8) &&& 255 = _
    rw [hmask, Nat.shiftRight_eq_div_pow]; norm_num
  have hpat : (decodeVersion v).Patch = v % 2 ^ 8 := by
    show v &&& 255 = _
    rw [hmask]; norm_num
  refine ⟨rfl, hmaj, hmin, hpat, ?_, ?_, ?_, by decide⟩
  · rw [hmaj]; have := Nat.mod_lt (v / 2 ^ 16) (y := 2 ^ 8) (by norm_num); omega
  · rw [hmin]; have := Nat.mod_lt (v / 2 ^ 8) (y := 2 ^ 8) (by norm_num); omega
  · rw [hpat]; have := Nat.mod_lt v (y := 2 ^ 8) (by norm_num); omega

/-- C9: The protocol-number-to-name mapping is closed: `IPProto.String`
returns `"TCP"` for the TCP protocol number, `"UDP"` for the UDP protocol
number, and the fallback `"IP(n)"` for every other value `n`. -/
theorem ipProtoString_closed_mapping :
    IPProto.String IPPROTO_TCP = "TCP" ∧
    IPProto.String IPPROTO_UDP = "UDP" ∧
    ∀ p : IPProto, p ≠ IPPROTO_TCP → p ≠ IPPROTO_UDP →
      IPProto.String p = "IP(" ++ toString p ++ ")" := by
  refine ⟨rfl, rfl, ?_⟩
  intro p h1 h2
  unfold IPProto.String
  rw [if_neg h1, if_neg h2]

/-- Witness for C9: the fallback at the concrete protocol number 9. -/
theorem ipProtoString_closed_mapping_witness :
    IPProto.String 9 = "IP(" ++ toString (9 : Nat) ++ ")" :=
  ipProtoString_closed_mapping.2.2 9 (by decide) (by decide)

/-- C10: In firewall-mark mode the rendered identity depends only on
`FWMark` and `SchedName`: two services with the same positive `FWMark` and
the same `SchedName` render identically under `Service.String`, whatever
their `Address`, `Protocol`, `Port` and remaining fields. -/
theorem serviceString_fwmark_noninterference (ipFmt : IP → String)
    (s₁ s₂ : Service) (hm : s₁.FWMark = s₂.FWMark) (hpos : s₁.FWMark > 0)
    (hn : s₁.SchedName = s₂.SchedName) :
    Service.String ipFmt s₁ = Service.String ipFmt s₂ := by
  unfold Service.String
  rw [if_pos hpos, if_pos (hm ▸ hpos), hm, hn]

/-- Witness for C10: two concrete services sharing `FWMark = 9` and
`SchedName = "wrr"` but differing in address, protocol, port, flags,
timeout, netmask, family and PE name render identically. -/
theorem serviceString_fwmark_noninterference_witness :
    Service.String (fun ip => toString ip.bytes) svcFwA =
      Service.String (fun ip => toString ip.bytes) svcFwB :=
  serviceString_fwmark_noninterference (fun ip => toString ip.bytes)
    svcFwA svcFwB rfl (by decide) rfl

/-- C4: `IsServicePresent` is true exactly when the underlying Get command
returned no error, and its boolean result does not depend on which error
occurred: every error maps to the same value. -/
theorem isServicePresent_presence_only :
    (∀ r : Option GoError, IsServicePresent r = true ↔ r = none) ∧
    (∀ e₁ e₂ : GoError, IsServicePresent (some e₁) = IsServicePresent (some e₂)) := by
  constructor
  · intro r
    cases r with
    | none => simp [IsServicePresent]
    | some e => simp [IsServicePresent]
  · intro e₁ e₂
    simp [IsServicePresent]

/-- C6: `Handle.Close` never fails and never panics, including on a handle
whose socket pointer is nil (as after a construction error): there it
performs no transport call at all. -/
theorem close_never_panics :
    (∀ h : Handle, ∃ effs, Handle.Close h = .ok effs) ∧
    Handle.Close { seq := 0, sock := none } = .ok [] := by
  constructor
  · intro h
    cases hs : h.sock with
    | none => exact ⟨[], by simp [Handle.Close, hs]⟩
    | some s => exact ⟨[.sockClose], by simp [Handle.Close, hs, sockCloseCall]⟩
  · rfl

/-- Helper for C1: the dump yielded a number of services other than one. -/
theorem getService_ne_one (res : List Service) (h : res.length ≠ 1) :
    GetService (.ok res) =
      .error (.msg ("Expected only one service obtained=" ++ toString res.length)) := by
  simp only [GetService]
  rw [dif_pos h]

/-- Helper for C1: the dump yielded exactly one service. -/
theorem getService_one (a : Service) : GetService (.ok [a]) = .ok a := by
  simp only [GetService]
  rw [dif_neg (by simp)]
  rfl

/-- C1: `GetService` succeeds with the single decoded service exactly when
the filtered dump yields exactly one entity; on zero or several entities it
returns the cardinality error naming the obtained count, and a failed dump
is passed through as is. -/
theorem getService_cardinality (res : List Service) :
    (∀ s, GetService (.ok res) = .ok s ↔ res = [s]) ∧
    (res.length ≠ 1 →
      GetService (.ok res) =
        .error (.msg ("Expected only one service obtained=" ++ toString res.length))) ∧
    (∀ err, GetService (.error err) = .error err) := by
  refine ⟨?_, getService_ne_one res, fun err => rfl⟩
  intro s
  constructor
  · intro hok
    by_cases hl : res.length = 1
    · obtain ⟨a, rfl⟩ := List.length_eq_one.mp hl
      rw [getService_one] at hok
      rw [Except.ok.inj hok]
    · rw [getService_ne_one res hl] at hok
      exact absurd hok (by simp)
  · rintro rfl
    exact getService_one s

/-- Witness for C1: an empty dump produces the cardinality error naming
the count 0. -/
theorem getService_cardinality_witness :
    GetService (.ok ([] : List Service)) =
      .error (.msg ("Expected only one service obtained=" ++
        toString (List.length ([] : List Service)))) :=
  (getService_cardinality []).2.1 (by decide)

/-- C2: encoding a service with `FWMark > 0` emits the firewall-mark
identity attribute and none of the address-family/protocol/address/port
identity attributes, whatever the other fields hold. -/
theorem encodeService_fwmark_exclusive (s : Service) (h : s.FWMark > 0) :
    SvcAttrTag.fwmark ∈ (encodeServiceAttrs s).map Attr.tag ∧
    SvcAttrTag.addressFamily ∉ (encodeServiceAttrs s).map Attr.tag ∧
    SvcAttrTag.protocol ∉ (encodeServiceAttrs s).map Attr.tag ∧
    SvcAttrTag.address ∉ (encodeServiceAttrs s).map Attr.tag ∧
    SvcAttrTag.port ∉ (encodeServiceAttrs s).map Attr.tag := by
  unfold encodeServiceAttrs
  rw [if_pos h]
  by_cases hpe : s.PEName = "" <;> simp [hpe]

/-- Witness for C2: the concrete service with `FWMark = 7` and populated
address, protocol and port fields encodes with only the firewall-mark
identity attribute. -/
theorem encodeService_fwmark_exclusive_witness :
    SvcAttrTag.fwmark ∈ (encodeServiceAttrs svcFw7).map Attr.tag ∧
    SvcAttrTag.addressFamily ∉ (encodeServiceAttrs svcFw7).map Attr.tag ∧
    SvcAttrTag.protocol ∉ (encodeServiceAttrs svcFw7).map Attr.tag ∧
    SvcAttrTag.address ∉ (encodeServiceAttrs svcFw7).map Attr.tag ∧
    SvcAttrTag.port ∉ (encodeServiceAttrs svcFw7).map Attr.tag :=
  encodeService_fwmark_exclusive svcFw7 (by decide)

/-- Helper for C5: dispatch on a closed handle fails at once, produces no
transport effect, and leaves the handle unchanged. -/
theorem doCmdM_closed (ex : Exchange) (h : MHandle) (hc : h.st = .closed) :
    doCmdM ex h = (.error (.msg "ipvs: handle closed"), [], h) := by
  cases h with
  | mk st seq =>
      cases st with
      | opened => exact absurd hc (by simp)
      | closed => rfl

/-- C5: Closed is terminal — after `closeM` the handle is in the closed
state, and any sequence of subsequently attempted operations fails
immediately, produces no send or receive on the transport, and leaves the
handle closed. -/
theorem close_terminal (h : MHandle) (exs : List Exchange) :
    (MHandle.closeM h).st = .closed ∧
    runCmdsM exs (MHandle.closeM h) =
      (exs.map fun _ => Except.error (GoError.msg "ipvs: handle closed"),
       [], MHandle.closeM h) := by
  have aux : ∀ (l : List Exchange) (h' : MHandle), h'.st = .closed →
      runCmdsM l h' =
        (l.map fun _ => Except.error (GoError.msg "ipvs: handle closed"), [], h') := by
    intro l
    induction l with
    | nil => intro h' _; rfl
    | cons ex rest ih =>
        intro h' hc
        simp only [runCmdsM, doCmdM_closed ex h' hc]
        rw [ih h' hc]
        simp
  exact ⟨rfl, aux exs (MHandle.closeM h) rfl⟩

/-- C7: when the namespace path fails to resolve, `New` returns exactly
the resolver error, and its effect trace holds no socket-opening call —
no transport resource is created on this path. -/
theorem new_ns_error_before_socket (env : NetEnv) (path : String) (err : GoError)
    (hp : path ≠ "") (hr : env.resolveNs path = .error err) :
    New env path = (.error err, [.resolveNs path]) ∧
    Effect.sockOpen ∉ (New env path).2 := by
  have h1 : New env path = (.error err, [.resolveNs path]) := by
    unfold New
    rw [if_neg hp, hr]
  refine ⟨h1, ?_⟩
  rw [h1]
  simp

/-- Witness for C7: the failing resolver environment at a concrete path. -/
theorem new_ns_error_before_socket_witness :
    New envNsFail "/var/run/netns/red" =
      (.error (.msg "no such namespace"), [.resolveNs "/var/run/netns/red"]) ∧
    Effect.sockOpen ∉ (New envNsFail "/var/run/netns/red").2 :=
  new_ns_error_before_socket envNsFail "/var/run/netns/red" (.msg "no such namespace")
    (by decide) rfl

/-- Helper for C8: a successful `newAfterNs` implies both timeout-setting
calls were made (they are in the trace) and succeeded. -/
theorem newAfterNs_ok_timeouts (env : NetEnv) (n : NsHandle) (h : Handle)
    (hok : (newAfterNs env n).1 = .ok h) :
    Effect.setSendTimeout netlinkSendSocketTimeout ∈ (newAfterNs env n).2 ∧
    Effect.setRecvTimeout netlinkRecvSocketsTimeout ∈ (newAfterNs env n).2 ∧
    env.setSendTimeoutRes netlinkSendSocketTimeout = none ∧
    env.setRecvTimeoutRes netlinkRecvSocketsTimeout = none := by
  unfold newAfterNs at hok ⊢
  cases ho : env.openSock n with
  | error e => simp only [ho] at hok; simp at hok
  | ok sock =>
      simp only [ho] at hok ⊢
      cases hs : env.setSendTimeoutRes netlinkSendSocketTimeout with
      | some e => simp only [hs] at hok; simp at hok
      | none =>
          simp only [hs] at hok ⊢
          cases hr : env.setRecvTimeoutRes netlinkRecvSocketsTimeout with
          | some e => simp only [hr] at hok; simp at hok
          | none =>
              simp only [hr] at hok ⊢
              simp [hs, hr]

/-- C8: every successful handle construction has set the fixed 30-second
send timeout and the fixed 3-second receive timeout on the socket (both
calls appear in the trace and both succeeded); had either call failed,
construction would not have succeeded. -/
theorem new_applies_fixed_timeouts (env : NetEnv) (path : String) (h : Handle)
    (hok : (New env path).1 = .ok h) :
    netlinkSendSocketTimeout = 30 * 1000000000 ∧
    netlinkRecvSocketsTimeout = 3 * 1000000000 ∧
    Effect.setSendTimeout netlinkSendSocketTimeout ∈ (New env path).2 ∧
    Effect.setRecvTimeout netlinkRecvSocketsTimeout ∈ (New env path).2 ∧
    env.setSendTimeoutRes netlinkSendSocketTimeout = none ∧
    env.setRecvTimeoutRes netlinkRecvSocketsTimeout = none := by
  refine ⟨rfl, rfl, ?_⟩
  unfold New at hok ⊢
  by_cases hp : path = ""
  · rw [if_pos hp] at hok ⊢
    have hm := newAfterNs_ok_timeouts env nsNone h hok
    exact ⟨hm.1, hm.2.1, hm.2.2⟩
  · rw [if_neg hp] at hok ⊢
    cases hres : env.resolveNs path with
    | error e => simp only [hres] at hok; simp at hok
    | ok n =>
        simp only [hres] at hok ⊢
        have hok' : (newAfterNs env n).1 = .ok h := hok
        have hm := newAfterNs_ok_timeouts env n h hok'
        refine ⟨?_, ?_, hm.2.2⟩
        · show Effect.setSendTimeout netlinkSendSocketTimeout ∈
            Effect.resolveNs path :: (newAfterNs env n).2
          exact List.mem_cons_of_mem _ hm.1
        · show Effect.setRecvTimeout netlinkRecvSocketsTimeout ∈
            Effect.resolveNs path :: (newAfterNs env n).2
          exact List.mem_cons_of_mem _ hm.2.1

/-- Witness for C8: in the all-succeeding environment with an empty path,
construction succeeds and both timeout calls are observed. -/
theorem new_applies_fixed_timeouts_witness :
    netlinkSendSocketTimeout = 30 * 1000000000 ∧
    netlinkRecvSocketsTimeout = 3 * 1000000000 ∧
    Effect.setSendTimeout netlinkSendSocketTimeout ∈ (New envOk "").2 ∧
    Effect.setRecvTimeout netlinkRecvSocketsTimeout ∈ (New envOk "").2 ∧
    envOk.setSendTimeoutRes netlinkSendSocketTimeout = none ∧
    envOk.setRecvTimeoutRes netlinkRecvSocketsTimeout = none :=
  new_applies_fixed_timeouts envOk "" { seq := 0, sock := some { fd := 3 } } rfl

end Ipvs
